import Mathlib

/-!
Verification of the resume backend (`src/server.js`).

The development shallowly embeds the JavaScript fragments that the
specification's claims are about:

* a model of JavaScript/JSON values (`JSValue`) together with the JS
  numeric domain (`JNum`: finite doubles are modelled as rationals, plus
  `NaN` and the two infinities) and the coercions `Number(...)`,
  `String(...)` and truthiness used by the code;
* the sanitization of the LLM feedback reply (`responseData`, lines
  289-339 of `server.js`), as `sanitizeFeedback`;
* the PDF extraction fallback chain `processPdf` (lines 120-163);
* the `/api/resume/feedback` handler's validation / error classification
  and temp-file cleanup (lines 208-391);
* the `/api/generate-doc`, `/api/generate-pdf` and `/api/resume/generate`
  handlers' filename sanitization and reply handling.

External library calls (pdf-parse, pdftotextjs, tesseract, puppeteer, the
Groq LLM API, the filesystem) are parameters of the embedded functions.
-/

/-- The JavaScript numeric domain: NaN, the two infinities, and finite
numbers (modelled as rationals; every JSON numeral denotes one). -/
inductive JNum where
  | nan
  | inf
  | ninf
  | fin (q : ℚ)
deriving DecidableEq

/-- JavaScript values as they arise from `JSON.parse` plus `undefined`
(the result of reading an absent property). Objects are association
lists of fields. -/
inductive JSValue where
  | undefined
  | null
  | bool (b : Bool)
  | num (n : JNum)
  | str (s : String)
  | arr (elems : List JSValue)
  | obj (fields : List (String × JSValue))

/-- Truthiness of a JS number: `NaN` and `0` are falsy. -/
def numTruthy : JNum → Bool
  | .nan => false
  | .fin q => q != 0
  | _ => true

/-- JS truthiness (`undefined`, `null`, `false`, `NaN`, `0` and `""` are
falsy; every object and array is truthy). -/
def truthy : JSValue → Bool
  | .undefined => false
  | .null => false
  | .bool b => b
  | .num n => numTruthy n
  | .str s => s != ""
  | .arr _ => true
  | .obj _ => true

/-- `Math.max` on JS numbers: any `NaN` operand gives `NaN`. -/
def jmax : JNum → JNum → JNum
  | .nan, _ => .nan
  | _, .nan => .nan
  | .inf, _ => .inf
  | _, .inf => .inf
  | .ninf, b => b
  | a, .ninf => a
  | .fin a, .fin b => .fin (max a b)

/-- `Math.min` on JS numbers: any `NaN` operand gives `NaN`. -/
def jmin : JNum → JNum → JNum
  | .nan, _ => .nan
  | _, .nan => .nan
  | .ninf, _ => .ninf
  | _, .ninf => .ninf
  | .inf, b => b
  | a, .inf => a
  | .fin a, .fin b => .fin (min a b)

/-- `Math.min(Math.max(x, lo), hi)`, the clamping pattern used by the
sanitizer. -/
def clamp (x : JNum) (lo hi : ℚ) : JNum :=
  jmin (jmax x (.fin lo)) (.fin hi)

/-- `x || d` at number type: the JS `||` operator applied to the result of
`Number(...)`, with a numeric default `d`. -/
def jnumOr (x : JNum) (d : ℚ) : JNum :=
  if numTruthy x then x else .fin d

/-- `v || d` on JS values (the JS `||` operator returns the left operand
when it is truthy and the right one otherwise). -/
def jsOr (v d : JSValue) : JSValue :=
  if truthy v then v else d

/-- The characters matched by the JS regexp class `\s` (`WhiteSpace` and
`LineTerminator` code points), which is also the set trimmed by
`String.prototype.trim`. -/
def jsSpaceChar (c : Char) : Bool :=
  let n := c.toNat
  n == 0x20 || n == 0x9 || n == 0xA || n == 0xB || n == 0xC || n == 0xD ||
  n == 0xA0 || n == 0x1680 ||
  (decide (0x2000 ≤ n) && decide (n ≤ 0x200A)) ||
  n == 0x2028 || n == 0x2029 || n == 0x202F || n == 0x205F ||
  n == 0x3000 || n == 0xFEFF

/-- `String.prototype.trim`: drop JS whitespace from both ends. -/
def jsTrim (s : String) : String :=
  String.mk (((s.data.dropWhile jsSpaceChar).reverse.dropWhile jsSpaceChar).reverse)

/-- Value of a list of decimal digit characters. -/
def digitsToNat (l : List Char) : Nat :=
  l.foldl (fun a c => a * 10 + (c.toNat - 48)) 0

/-- JS `ToNumber` on strings: trimmed empty string is `0`; an optionally
signed decimal literal (with optional fraction and exponent) or
`Infinity` denotes the corresponding number; anything else is `NaN`.
(Hex, octal and binary literals are not modelled and map to `NaN`.) -/
def strToNum (s : String) : JNum :=
  let t := ((s.data.dropWhile jsSpaceChar).reverse.dropWhile jsSpaceChar).reverse
  if t = [] then .fin 0
  else
    let signed : ℚ × List Char :=
      match t with
      | '+' :: r => (1, r)
      | '-' :: r => (-1, r)
      | r => (1, r)
    let sign := signed.1
    let u := signed.2
    if u = "Infinity".data then (if sign = 1 then .inf else .ninf)
    else
      let ip := u.takeWhile Char.isDigit
      let r1 := u.dropWhile Char.isDigit
      let fracked : List Char × List Char :=
        match r1 with
        | '.' :: r => (r.takeWhile Char.isDigit, r.dropWhile Char.isDigit)
        | _ => ([], r1)
      let fp := fracked.1
      let r2 := fracked.2
      let exped : Bool × Int × List Char :=
        match r2 with
        | 'e' :: rest =>
          let esigned : Int × List Char :=
            match rest with
            | '+' :: r => (1, r)
            | '-' :: r => (-1, r)
            | r => (1, r)
          let ed := esigned.2.takeWhile Char.isDigit
          (ed != [], esigned.1 * (digitsToNat ed : Int), esigned.2.dropWhile Char.isDigit)
        | 'E' :: rest =>
          let esigned : Int × List Char :=
            match rest with
            | '+' :: r => (1, r)
            | '-' :: r => (-1, r)
            | r => (1, r)
          let ed := esigned.2.takeWhile Char.isDigit
          (ed != [], esigned.1 * (digitsToNat ed : Int), esigned.2.dropWhile Char.isDigit)
        | _ => (true, 0, r2)
      if (ip ≠ [] ∨ fp ≠ []) ∧ exped.1 = true ∧ exped.2.2 = [] then
        .fin (sign * ((digitsToNat ip : ℚ) + (digitsToNat fp : ℚ) / (10 : ℚ) ^ fp.length)
          * (10 : ℚ) ^ exped.2.1)
      else .nan

/-- Rendering of a JS number as a string. Finite non-integers are printed
as `num/den`, approximating JS decimal formatting; as in JS the result is
never empty, and on integers it agrees with JS. -/
def numToString : JNum → String
  | .nan => "NaN"
  | .inf => "Infinity"
  | .ninf => "-Infinity"
  | .fin q => if q.den = 1 then toString q.num else toString q.num ++ "/" ++ toString q.den

mutual

/-- JS `String(...)` coercion: arrays render as their elements joined by
commas (with `null`/`undefined` elements rendered empty, as in
`Array.prototype.join`), plain objects as `"[object Object]"`. -/
def jToString : JSValue → String
  | .undefined => "undefined"
  | .null => "null"
  | .bool b => if b then "true" else "false"
  | .num n => numToString n
  | .str s => s
  | .arr xs => String.intercalate "," (jToStringList xs)
  | .obj _ => "[object Object]"

/-- Element-wise rendering used by `Array.prototype.join`. -/
def jToStringList : List JSValue → List String
  | [] => []
  | .null :: rest => "" :: jToStringList rest
  | .undefined :: rest => "" :: jToStringList rest
  | x :: rest => jToString x :: jToStringList rest

end

/-- JS `Number(...)` coercion. Arrays and objects go through `ToPrimitive`,
i.e. through their string rendering. -/
def toNumber : JSValue → JNum
  | .undefined => .nan
  | .null => .fin 0
  | .bool b => .fin (if b then 1 else 0)
  | .num n => n
  | .str s => strToNum s
  | .arr xs => strToNum (jToString (.arr xs))
  | .obj fs => strToNum (jToString (.obj fs))

/-- First-match association-list lookup for object fields. -/
def lookupField : List (String × JSValue) → String → JSValue
  | [], _ => .undefined
  | (k, v) :: rest, key => if k = key then v else lookupField rest key

/-- Property read `v[k]` on a value that is not `null`/`undefined`:
objects yield the field (or `undefined`), primitives and arrays yield
`undefined` for the property names the sanitizer reads. -/
def getF (v : JSValue) (k : String) : JSValue :=
  match v with
  | .obj fs => lookupField fs k
  | _ => .undefined

/-- `true` exactly on `null` and `undefined`, the receivers on which a
property read throws a `TypeError`. -/
def isNullish : JSValue → Bool
  | .null => true
  | .undefined => true
  | _ => false

/-- One entry of the sanitized `categories` array (`server.js` 292-296). -/
structure Category where
  name : String
  score : JNum
  feedback : String

/-- One entry of the sanitized `keywordAnalysis` array (`server.js`
312-317). -/
structure KeywordEntry where
  keyword : String
  count : JNum
  importance : String
  recommendation : String

/-- The sanitized feedback response `responseData` (`server.js` 289-320). -/
structure Feedback where
  overallScore : JNum
  categories : List Category
  strengths : List String
  suggestions : List String
  jobTitleMatch : String
  keywordAnalysis : List KeywordEntry
  atsScore : JNum

/-- The fallback category substituted when `result.categories` is not an
array (`server.js` 297-303). -/
def defaultCategory : Category :=
  { name := "General Assessment"
    score := .fin 5
    feedback := "Comprehensive analysis could not be generated. Please try again." }

/-- Default strengths when `result.strengths` is not an array
(`server.js` 306). -/
def defaultStrengths : List String :=
  ["Strong foundational content", "Good structure"]

/-- Default suggestions when `result.suggestions` is not an array
(`server.js` 309). -/
def defaultSuggestions : List String :=
  ["Add more quantifiable achievements", "Include relevant keywords for your industry"]

/-- Suggestions substituted when the sanitized list came out empty
(`server.js` 323-331). -/
def fallbackSuggestions : List String :=
  ["Use more action verbs (e.g., \x27managed\x27, \x27developed\x27, \x27implemented\x27)",
   "Quantify achievements with numbers and metrics",
   "Include relevant industry keywords",
   "Keep resume to 1-2 pages maximum",
   "Use consistent formatting throughout"]

/-- Strengths substituted when the sanitized list came out empty
(`server.js` 333-339). -/
def fallbackStrengths : List String :=
  ["Clear section organization", "Relevant experience included", "Professional presentation"]

/-- `Array.prototype.map` with a body that may throw: the first throwing
element aborts the whole map (`none`). -/
def mapOption (f : α → Option β) : List α → Option (List β)
  | [] => some []
  | x :: xs =>
    match f x with
    | none => none
    | some y =>
      match mapOption f xs with
      | none => none
      | some ys => some (y :: ys)

/-- The per-category sanitizer (`server.js` 292-296): `none` models the
`TypeError` thrown by a property read on a `null`/`undefined` element. -/
def sanitizeCategory : JSValue → Option Category
  | .null => none
  | .undefined => none
  | cat => some
      { name := jToString (jsOr (getF cat "name") (.str "Uncategorized"))
        score := clamp (jnumOr (toNumber (getF cat "score")) 5) 0 10
        feedback := jToString (jsOr (getF cat "feedback") (.str "No specific feedback provided")) }

/-- `["high", "medium", "low"].includes(kw.importance) ? kw.importance :
"medium"` (`server.js` 315): `includes` compares by strict equality, so
only those exact string values survive. -/
def importanceOf (v : JSValue) : String :=
  match v with
  | .str s => if s = "high" ∨ s = "medium" ∨ s = "low" then s else "medium"
  | _ => "medium"

/-- The per-keyword sanitizer (`server.js` 312-317). -/
def sanitizeKeyword : JSValue → Option KeywordEntry
  | .null => none
  | .undefined => none
  | kw => some
      { keyword := jToString (jsOr (getF kw "keyword") (.str ""))
        count := jmax (jnumOr (toNumber (getF kw "count")) 0) (.fin 0)
        importance := importanceOf (getF kw "importance")
        recommendation :=
          jToString (jsOr (getF kw "recommendation") (.str "Consider adding this keyword")) }

/-- `result.categories` sanitization (`server.js` 291-303): map over an
array, fixed default otherwise. -/
def sanitizeCats (r : JSValue) : Option (List Category) :=
  match getF r "categories" with
  | .arr xs => mapOption sanitizeCategory xs
  | _ => some [defaultCategory]

/-- `result.keywordAnalysis` sanitization (`server.js` 311-318): map over
an array and drop entries with a falsy (empty) sanitized keyword; `[]`
otherwise. -/
def sanitizeKws (r : JSValue) : Option (List KeywordEntry) :=
  match getF r "keywordAnalysis" with
  | .arr xs =>
    match mapOption sanitizeKeyword xs with
    | none => none
    | some l => some (l.filter (fun kw => kw.keyword != ""))
  | _ => some []

/-- The `strengths`/`suggestions` sanitization (`server.js` 304-309):
`Array.isArray(v) ? v.map(s => String(s)).filter(s => s.length > 0) : dflt`. -/
def sanStringArray (v : JSValue) (dflt : List String) : List String :=
  match v with
  | .arr xs => (xs.map jToString).filter (fun s => decide (s.length > 0))
  | _ => dflt

/-- The post-construction fixup (`server.js` 322-339): an empty sanitized
list is replaced wholesale. -/
def withFallback (l fallb : List String) : List String :=
  if l = [] then fallb else l

/-- Construction of `responseData` from the parsed reply `r` plus its
post-construction fixups of empty `strengths`/`suggestions`
(`server.js` 289-339). -/
def mkFeedback (r : JSValue) (cats : List Category) (kws : List KeywordEntry) : Feedback :=
  { overallScore := clamp (jnumOr (toNumber (getF r "overallScore")) 50) 0 100
    categories := cats
    strengths :=
      withFallback (sanStringArray (getF r "strengths") defaultStrengths) fallbackStrengths
    suggestions :=
      withFallback (sanStringArray (getF r "suggestions") defaultSuggestions) fallbackSuggestions
    jobTitleMatch := jToString (jsOr (getF r "jobTitleMatch") (.str "Professional"))
    keywordAnalysis := kws
    atsScore := clamp (jnumOr (toNumber (getF r "atsScore")) 60) 0 100 }

/-- The whole sanitization of the parsed LLM reply (`server.js` 289-339):
`none` models the `TypeError` thrown when the reply itself, or an element
of its `categories`/`keywordAnalysis` arrays, is `null`/`undefined`. -/
def sanitizeFeedback (result : JSValue) : Option Feedback :=
  if isNullish result then none
  else
    match sanitizeCats result, sanitizeKws result with
    | some cats, some kws => some (mkFeedback result cats kws)
    | _, _ => none

/-- Outcome of one external extraction library call: the text it returned,
or the exception it threw. -/
inductive ExtractResult where
  | ok (text : String)
  | err (msg : String)

/-- The three extraction backends tried by `processPdf`, as abstract
parameters (their behaviour on the given file path). -/
structure PdfExtractors where
  pdfParse : ExtractResult
  pdftotextjs : ExtractResult
  tesseract : ExtractResult

/-- Names of the extraction steps, used to record which backends a run of
`processPdf` actually invoked. -/
inductive ExtractStep where
  | pdfParseStep
  | pdftotextjsStep
  | tesseractStep
deriving DecidableEq

/-- The acceptance test applied to each extractor's output
(`text && text.trim().length > 50`; a trimmed length above 50 implies the
text is truthy). -/
def passes (t : String) : Bool :=
  decide ((jsTrim t).length > 50)

/-- The OCR tail of `processPdf` (`server.js` 146-158): a Tesseract
exception propagates out of the enclosing try, otherwise the text is
returned if it passes and the final error is thrown if not. -/
def processPdfTesseract (ex : PdfExtractors) : Except String String × List ExtractStep :=
  let all := [ExtractStep.pdfParseStep, ExtractStep.pdftotextjsStep, ExtractStep.tesseractStep]
  match ex.tesseract with
  | .err m => (.error m, all)
  | .ok t3 =>
    if passes t3 then (.ok t3, all)
    else (.error "PDF could not be processed by any method", all)

/-- The text obtained from pdf-parse after its `.catch` handler
(`server.js` 124-127): an exception is replaced by `{ text: "" }`. -/
def pdfParseText (ex : PdfExtractors) : String :=
  match ex.pdfParse with | .ok t => t | .err _ => ""

/-- `processPdf` (`server.js` 120-163): try pdf-parse (an exception is
caught and treated as empty text), then pdftotextjs (an exception is
caught and falls through), then Tesseract OCR; the first output whose
trimmed length exceeds 50 is returned. The second component records which
backends were invoked. -/
def processPdf (ex : PdfExtractors) : Except String String × List ExtractStep :=
  if passes (pdfParseText ex) then (.ok (pdfParseText ex), [ExtractStep.pdfParseStep])
  else
    match ex.pdftotextjs with
    | .ok t2 =>
      if passes t2 then (.ok t2, [ExtractStep.pdfParseStep, ExtractStep.pdftotextjsStep])
      else processPdfTesseract ex
    | .err _ => processPdfTesseract ex

/-- `pat` occurs as a contiguous run inside `s` (at any position). -/
def isSubChars (pat : List Char) : List Char → Bool
  | [] => pat.isEmpty
  | c :: rest => pat.isPrefixOf (c :: rest) || isSubChars pat rest

/-- JS `String.prototype.includes`. -/
def strIncludes (s pat : String) : Bool :=
  isSubChars pat.data s.data

/-- The catch-block of `/api/resume/feedback` (`server.js` 351-380):
classify the error message into an HTTP status. -/
def classifyFeedbackError (msg : String) : Nat :=
  if strIncludes msg "timeout" then 504
  else if strIncludes msg "JSON" || strIncludes msg "parse" then 500
  else if strIncludes msg "short" || strIncludes msg "extract" then 400
  else 500

/-- What the `/api/resume/feedback` handler sends back: HTTP status, the
`success` flag, whether the Groq LLM endpoint was ever called, and the
sanitized data on success. -/
structure HandlerResponse where
  status : Nat
  success : Bool
  llmCalled : Bool
  body : Option Feedback

/-- The `/api/resume/feedback` handler after upload validation
(`server.js` 208-391). `extract` is the outcome of the file-type-specific
extraction, `llm` the combined outcome of `callGroq` plus `JSON.parse` of
its reply content. The length gate of line 231 throws
`"Resume text is too short or could not be extracted properly"` before
the LLM is contacted. -/
def feedbackHandler (extract : Except String String) (llm : Except String JSValue) :
    HandlerResponse :=
  match extract with
  | .error msg =>
    { status := classifyFeedbackError msg, success := false, llmCalled := false, body := none }
  | .ok text =>
    if text = "" ∨ (jsTrim text).length < 50 then
      { status := classifyFeedbackError "Resume text is too short or could not be extracted properly"
        success := false, llmCalled := false, body := none }
    else
      match llm with
      | .error msg =>
        { status := classifyFeedbackError msg, success := false, llmCalled := true, body := none }
      | .ok parsed =>
        match sanitizeFeedback parsed with
        | none =>
          { status := classifyFeedbackError "Cannot read properties of null"
            success := false, llmCalled := true, body := none }
        | some fb =>
          { status := 200, success := true, llmCalled := true, body := some fb }

/-- The `finally` block of `/api/resume/feedback` (`server.js` 381-390):
if the uploaded file path is set (truthy) and exists, unlink it. The
filesystem is modelled as the set of existing paths. -/
def cleanupUpload (fs : Finset String) (filePath : String) : Finset String :=
  if filePath ≠ "" ∧ filePath ∈ fs then fs.erase filePath else fs

/-- The whole handler paired with the filesystem state after its
`finally` block, which runs on both the success and the error path. -/
def feedbackHandlerFull (fs : Finset String) (filePath : String)
    (extract : Except String String) (llm : Except String JSValue) :
    HandlerResponse × Finset String :=
  (feedbackHandler extract llm, cleanupUpload fs filePath)

/-- The 62 characters of the regexp class `[a-zA-Z0-9]`; the class
`[^a-zA-Z0-9\s]` removed by the first `.replace` is the complement of
these together with `\s`. -/
def alnumChars : List Char :=
  "abcdefghijklmnopqrstuvwxyzABCDEFGHIJKLMNOPQRSTUVWXYZ0123456789".data

/-- A character kept by `.replace(/[^a-zA-Z0-9\s]/g, '')`. -/
def keptChar (c : Char) : Bool :=
  alnumChars.contains c || jsSpaceChar c

/-- `.replace(/\s+/g, '-')`: each maximal run of whitespace becomes one
hyphen. The flag records whether the previous character was whitespace. -/
def collapseSpaces : Bool → List Char → List Char
  | _, [] => []
  | prevSpace, c :: rest =>
    if jsSpaceChar c then
      if prevSpace then collapseSpaces true rest
      else '-' :: collapseSpaces true rest
    else c :: collapseSpaces false rest

/-- The filename sanitization shared by `/api/generate-doc` and
`/api/generate-pdf` (`server.js` 480-483, 988-991, 1025-1034):
`name.replace(/[^a-zA-Z0-9\s]/g, '').replace(/\s+/g, '-').toLowerCase()`. -/
def sanitizeFileName (name : String) : String :=
  String.mk ((collapseSpaces false (name.data.filter keptChar)).map Char.toLower)

/-- `finalFileName` of `/api/generate-doc` (`server.js` 478-484): a truthy
`resumeData.name` is sanitized, otherwise the name stays `"resume"`.
`none` models an absent (or non-string, hence here untreated) name. -/
def finalFileNameDoc (name : Option String) : String :=
  match name with
  | some n => if n = "" then "resume" else sanitizeFileName n
  | none => "resume"

/-- `finalFileName` of `/api/generate-pdf` (`server.js` 1022-1035):
`resumeData.name` wins, then `fileName`, then `"resume"`; falsy (empty)
strings fall through like absent ones. -/
def finalFileNamePdf (resumeName fileName : Option String) : String :=
  let fromFileName :=
    match fileName with
    | some f => if f = "" then "resume" else sanitizeFileName f
    | none => "resume"
  match resumeName with
  | some n => if n = "" then fromFileName else sanitizeFileName n
  | none => fromFileName

/-- The identifiers bound at top level in `server.js` (its `require`
bindings, configuration constants, helpers and the `docx` destructuring).
`chromium` is referenced by `/api/generate-pdf` but appears nowhere here. -/
def serverTopLevel : List String :=
  ["express", "cors", "fetch", "puppeteer", "multer", "pdfParse",
   "readFileSync", "existsSync", "mkdirSync", "unlinkSync", "docxParser",
   "createWorker", "pdftotext", "htmlToDocx", "app", "PORT", "UPLOAD_DIR",
   "MAX_FILE_SIZE", "storage", "fileFilter", "upload", "GROQ_API_KEY",
   "MODEL", "GROQ_API_URL", "callGroq", "isPdfTextBased", "processPdf",
   "processDocx", "processTextFile", "validateFile", "docx", "Document",
   "Paragraph", "TextRun", "HeadingLevel", "AlignmentType",
   "convertInchesToTwip", "createCleanHtmlForDocx"]

/-- Evaluation of a free identifier: a `ReferenceError` unless the name is
bound at top level. -/
def referenceGlobal (x : String) : Except String Unit :=
  if serverTopLevel.contains x then .ok () else .error (x ++ " is not defined")

/-- The request body of `/api/generate-pdf`. -/
structure GeneratePdfRequest where
  html : Option String
  fileName : Option String
  resumeName : Option String

/-- The response of `/api/generate-pdf`: HTTP status, the JSON error body
on failure, and the rendered file name on success. -/
structure PdfResponse where
  status : Nat
  errorBody : Option String
  sentFileName : Option String

/-- The try-block of `/api/generate-pdf` (`server.js` 1018-1121): compute
the file name, then evaluate the undeclared identifier `chromium`
(line 1041) before launching the browser; `render` abstracts the
puppeteer rendering that would follow. -/
def generatePdfTry (req : GeneratePdfRequest) (render : GeneratePdfRequest → String) :
    Except String String :=
  let fn := finalFileNamePdf req.resumeName req.fileName
  match referenceGlobal "chromium" with
  | .error e => .error e
  | .ok _ =>
    let _ := render req
    .ok fn

/-- The `/api/generate-pdf` handler (`server.js` 1017-1126): any exception
from the try-block is answered with `500` and
`{"error": "Failed to generate PDF"}`. -/
def generatePdfHandler (req : GeneratePdfRequest) (render : GeneratePdfRequest → String) :
    PdfResponse :=
  match generatePdfTry req render with
  | .error _ => { status := 500, errorBody := some "Failed to generate PDF", sentFileName := none }
  | .ok fn => { status := 200, errorBody := none, sentFileName := some (fn ++ ".pdf") }

/-- The response of `/api/resume/generate`: status, the JSON value sent on
success, and the error body otherwise. -/
structure GenerateResponse where
  status : Nat
  body : Option JSValue
  errorBody : Option String

/-- The `/api/resume/generate` handler (`server.js` 1129-1192): validate
the prompt, call the LLM, `JSON.parse` the content (`llm` combines both:
`.ok none` is a reply that is not valid JSON) and send the parsed value
back with `res.json(parsed)` as is. -/
def resumeGenerateHandler (prompt : String) (llm : Except String (Option JSValue)) :
    GenerateResponse :=
  if prompt = "" ∨ jsTrim prompt = "" then
    { status := 400, body := none, errorBody := some "Please provide your career details." }
  else
    match llm with
    | .error msg => { status := 500, body := none, errorBody := some msg }
    | .ok none =>
      { status := 500, body := none, errorBody := some "Invalid JSON returned by Groq" }
    | .ok (some parsed) => { status := 200, body := some parsed, errorBody := none }

/-! ### Basic lemmas about the numeric sanitization -/

theorem jnumOr_ne_nan (x : JNum) (d : ℚ) : jnumOr x d ≠ JNum.nan := by
  unfold jnumOr
  split
  · next ht => cases x <;> simp_all [numTruthy]
  · simp

theorem clamp_ne_nan_mem {y : JNum} (hy : y ≠ JNum.nan) {lo hi : ℚ} (hlh : lo ≤ hi) :
    ∃ q, clamp y lo hi = JNum.fin q ∧ lo ≤ q ∧ q ≤ hi := by
  cases y with
  | nan => exact absurd rfl hy
  | inf => exact ⟨hi, rfl, hlh, le_refl _⟩
  | ninf =>
    refine ⟨lo, ?_, le_refl _, hlh⟩
    show JNum.fin (min lo hi) = JNum.fin lo
    rw [min_eq_left hlh]
  | fin q =>
    exact ⟨min (max q lo) hi, rfl, le_min (le_max_right _ _) hlh, min_le_right _ _⟩

theorem clampOr_mem (x : JNum) (d lo hi : ℚ) (hlh : lo ≤ hi) :
    ∃ q, clamp (jnumOr x d) lo hi = JNum.fin q ∧ lo ≤ q ∧ q ≤ hi :=
  clamp_ne_nan_mem (jnumOr_ne_nan x d) hlh

theorem mapOption_mem {α β : Type _} {f : α → Option β} :
    ∀ {xs : List α} {ys : List β}, mapOption f xs = some ys →
      ∀ y ∈ ys, ∃ x ∈ xs, f x = some y := by
  intro xs
  induction xs with
  | nil =>
    intro ys h y hy
    simp only [mapOption, Option.some.injEq] at h
    subst h
    simp at hy
  | cons x rest ih =>
    intro ys h y hy
    simp only [mapOption] at h
    cases hfx : f x with
    | none => rw [hfx] at h; simp at h
    | some b =>
      rw [hfx] at h
      cases hrest : mapOption f rest with
      | none => rw [hrest] at h; simp at h
      | some bs =>
        rw [hrest] at h
        simp only [Option.some.injEq] at h
        subst h
        rcases List.mem_cons.mp hy with h1 | h2
        · exact ⟨x, List.mem_cons_self x rest, h1 ▸ hfx⟩
        · obtain ⟨x', hx', hfx'⟩ := ih hrest y h2
          exact ⟨x', List.mem_cons_of_mem _ hx', hfx'⟩

theorem sanitizeFeedback_eq_some {r : JSValue} {fb : Feedback}
    (h : sanitizeFeedback r = some fb) :
    ∃ cats kws, sanitizeCats r = some cats ∧ sanitizeKws r = some kws ∧
      fb = mkFeedback r cats kws := by
  unfold sanitizeFeedback at h
  by_cases hn : isNullish r
  · simp [hn] at h
  · simp only [hn, Bool.false_eq_true, if_false] at h
    cases hc : sanitizeCats r with
    | none => rw [hc] at h; simp at h
    | some cats =>
      cases hk : sanitizeKws r with
      | none => rw [hc, hk] at h; simp at h
      | some kws =>
        rw [hc, hk] at h
        simp only [Option.some.injEq] at h
        exact ⟨cats, kws, rfl, rfl, h.symm⟩

theorem mkFeedback_overallScore (r : JSValue) (cats : List Category) (kws : List KeywordEntry) :
    (mkFeedback r cats kws).overallScore =
      clamp (jnumOr (toNumber (getF r "overallScore")) 50) 0 100 := rfl

theorem mkFeedback_atsScore (r : JSValue) (cats : List Category) (kws : List KeywordEntry) :
    (mkFeedback r cats kws).atsScore =
      clamp (jnumOr (toNumber (getF r "atsScore")) 60) 0 100 := rfl

theorem mkFeedback_categories (r : JSValue) (cats : List Category) (kws : List KeywordEntry) :
    (mkFeedback r cats kws).categories = cats := rfl

theorem mkFeedback_keywordAnalysis (r : JSValue) (cats : List Category) (kws : List KeywordEntry) :
    (mkFeedback r cats kws).keywordAnalysis = kws := rfl

theorem mkFeedback_strengths (r : JSValue) (cats : List Category) (kws : List KeywordEntry) :
    (mkFeedback r cats kws).strengths =
      withFallback (sanStringArray (getF r "strengths") defaultStrengths) fallbackStrengths := rfl

theorem mkFeedback_suggestions (r : JSValue) (cats : List Category) (kws : List KeywordEntry) :
    (mkFeedback r cats kws).suggestions =
      withFallback (sanStringArray (getF r "suggestions") defaultSuggestions)
        fallbackSuggestions := rfl

theorem mkFeedback_jobTitleMatch (r : JSValue) (cats : List Category) (kws : List KeywordEntry) :
    (mkFeedback r cats kws).jobTitleMatch =
      jToString (jsOr (getF r "jobTitleMatch") (.str "Professional")) := rfl

theorem sanitizeCategory_score {x : JSValue} {c : Category} (h : sanitizeCategory x = some c) :
    ∃ q, c.score = JNum.fin q ∧ 0 ≤ q ∧ q ≤ 10 := by
  cases x <;> simp only [sanitizeCategory, Option.some.injEq, reduceCtorEq] at h <;>
    subst h <;> dsimp only <;> exact clampOr_mem _ 5 0 10 (by norm_num)

theorem sanitizeCats_scores {r : JSValue} {cats : List Category}
    (h : sanitizeCats r = some cats) :
    ∀ c ∈ cats, ∃ q, c.score = JNum.fin q ∧ 0 ≤ q ∧ q ≤ 10 := by
  intro c hc
  unfold sanitizeCats at h
  split at h
  · obtain ⟨x, _, hx⟩ := mapOption_mem h c hc
    exact sanitizeCategory_score hx
  · simp only [Option.some.injEq] at h
    subst h
    rcases List.mem_singleton.mp hc with rfl
    exact ⟨5, rfl, by norm_num, by norm_num⟩

/-- C1: for every LLM feedback reply (any JSON value) from which the
sanitized response is built, `overallScore` and `atsScore` are numbers in
the range 0 to 100 inclusive, and every element of `categories` has a
`score` that is a number in the range 0 to 10 inclusive. -/
theorem feedback_scores_in_range (r : JSValue) (fb : Feedback)
    (h : sanitizeFeedback r = some fb) :
    (∃ q, fb.overallScore = JNum.fin q ∧ 0 ≤ q ∧ q ≤ 100) ∧
    (∃ q, fb.atsScore = JNum.fin q ∧ 0 ≤ q ∧ q ≤ 100) ∧
    (∀ c ∈ fb.categories, ∃ q, c.score = JNum.fin q ∧ 0 ≤ q ∧ q ≤ 10) := by
  obtain ⟨cats, kws, hc, _, rfl⟩ := sanitizeFeedback_eq_some h
  refine ⟨?_, ?_, ?_⟩
  · rw [mkFeedback_overallScore]
    exact clampOr_mem _ 50 0 100 (by norm_num)
  · rw [mkFeedback_atsScore]
    exact clampOr_mem _ 60 0 100 (by norm_num)
  · rw [mkFeedback_categories]
    exact sanitizeCats_scores hc

theorem feedback_scores_in_range_witness :
    ∃ q, (mkFeedback (JSValue.obj []) [defaultCategory] []).overallScore = JNum.fin q ∧
      0 ≤ q ∧ q ≤ 100 :=
  (feedback_scores_in_range (JSValue.obj [])
    (mkFeedback (JSValue.obj []) [defaultCategory] []) rfl).1

/-- C9: a reported score of exactly 0 is not preserved by sanitization:
the falsy 0 triggers the `||` default before clamping, so an
`overallScore` of 0 becomes 50, an `atsScore` of 0 becomes 60, and a
category score of 0 becomes 5. -/
theorem zero_scores_not_preserved :
    (∀ r fb, sanitizeFeedback r = some fb →
      (getF r "overallScore" = JSValue.num (JNum.fin 0) → fb.overallScore = JNum.fin 50) ∧
      (getF r "atsScore" = JSValue.num (JNum.fin 0) → fb.atsScore = JNum.fin 60)) ∧
    (∀ cat c, sanitizeCategory cat = some c →
      getF cat "score" = JSValue.num (JNum.fin 0) → c.score = JNum.fin 5) := by
  constructor
  · intro r fb h
    obtain ⟨cats, kws, _, _, rfl⟩ := sanitizeFeedback_eq_some h
    constructor
    · intro hz
      rw [mkFeedback_overallScore, hz]
      decide
    · intro hz
      rw [mkFeedback_atsScore, hz]
      decide
  · intro cat c h hz
    cases cat <;> simp only [sanitizeCategory, Option.some.injEq, reduceCtorEq] at h <;>
      subst h <;> dsimp only <;> rw [hz] <;> decide

/-- A reply whose scores are all literally 0. -/
def demoZeroReply : JSValue :=
  .obj [("overallScore", .num (.fin 0)), ("atsScore", .num (.fin 0))]

theorem zero_scores_not_preserved_witness :
    (mkFeedback demoZeroReply [defaultCategory] []).overallScore = JNum.fin 50 ∧
    (mkFeedback demoZeroReply [defaultCategory] []).atsScore = JNum.fin 60 :=
  ⟨(zero_scores_not_preserved.1 demoZeroReply
      (mkFeedback demoZeroReply [defaultCategory] []) rfl).1 rfl,
   (zero_scores_not_preserved.1 demoZeroReply
      (mkFeedback demoZeroReply [defaultCategory] []) rfl).2 rfl⟩

/-! ### Keyword analysis -/

theorem jmax_zero_nonneg {y : JNum} (hy : y ≠ JNum.nan) :
    jmax y (JNum.fin 0) = JNum.inf ∨ ∃ q, jmax y (JNum.fin 0) = JNum.fin q ∧ 0 ≤ q := by
  cases y with
  | nan => exact absurd rfl hy
  | inf => exact Or.inl rfl
  | ninf => exact Or.inr ⟨0, rfl, le_refl _⟩
  | fin q => exact Or.inr ⟨max q 0, rfl, le_max_right _ _⟩

theorem sanitizeKeyword_count {x : JSValue} {e : KeywordEntry}
    (h : sanitizeKeyword x = some e) :
    e.count = JNum.inf ∨ ∃ q, e.count = JNum.fin q ∧ 0 ≤ q := by
  cases x <;> simp only [sanitizeKeyword, Option.some.injEq, reduceCtorEq] at h <;>
    subst h <;> dsimp only <;> exact jmax_zero_nonneg (jnumOr_ne_nan _ 0)

theorem importanceOf_mem (v : JSValue) :
    importanceOf v = "high" ∨ importanceOf v = "medium" ∨ importanceOf v = "low" := by
  cases v <;> try exact Or.inr (Or.inl rfl)
  next s =>
    dsimp only [importanceOf]
    by_cases hs : s = "high" ∨ s = "medium" ∨ s = "low"
    · rw [if_pos hs]
      exact hs
    · rw [if_neg hs]
      exact Or.inr (Or.inl rfl)

theorem importanceOf_default {v : JSValue} (h1 : v ≠ JSValue.str "high")
    (h2 : v ≠ JSValue.str "medium") (h3 : v ≠ JSValue.str "low") :
    importanceOf v = "medium" := by
  cases v <;> try rfl
  next s =>
    dsimp only [importanceOf]
    rw [if_neg]
    rintro (rfl | rfl | rfl)
    · exact h1 rfl
    · exact h2 rfl
    · exact h3 rfl

theorem sanitizeKeyword_importance {x : JSValue} {e : KeywordEntry}
    (h : sanitizeKeyword x = some e) :
    e.importance = "high" ∨ e.importance = "medium" ∨ e.importance = "low" := by
  cases x <;> simp only [sanitizeKeyword, Option.some.injEq, reduceCtorEq] at h <;>
    subst h <;> dsimp only <;> exact importanceOf_mem _

/-- C8: every entry of the sanitized `keywordAnalysis` has a non-empty
keyword, a count that is a number greater than or equal to 0 (possibly
`Infinity`), and an importance among "high", "medium", "low"; any other
importance value is replaced by "medium", and entries whose keyword
coerces to the empty string have been removed by the filter. -/
theorem keyword_analysis_invariants :
    (∀ r fb, sanitizeFeedback r = some fb → ∀ kw ∈ fb.keywordAnalysis,
      kw.keyword ≠ "" ∧
      (kw.count = JNum.inf ∨ ∃ q, kw.count = JNum.fin q ∧ 0 ≤ q) ∧
      (kw.importance = "high" ∨ kw.importance = "medium" ∨ kw.importance = "low")) ∧
    (∀ x e, sanitizeKeyword x = some e →
      getF x "importance" ≠ JSValue.str "high" →
      getF x "importance" ≠ JSValue.str "medium" →
      getF x "importance" ≠ JSValue.str "low" → e.importance = "medium") := by
  constructor
  · intro r fb h kw hkw
    obtain ⟨cats, kws, _, hk, rfl⟩ := sanitizeFeedback_eq_some h
    rw [mkFeedback_keywordAnalysis] at hkw
    unfold sanitizeKws at hk
    split at hk
    · next xs _ =>
      cases hm : mapOption sanitizeKeyword xs with
      | none => rw [hm] at hk; simp at hk
      | some l =>
        rw [hm] at hk
        simp only [Option.some.injEq] at hk
        subst hk
        have hmem := List.mem_filter.mp hkw
        obtain ⟨x, _, hx⟩ := mapOption_mem hm kw hmem.1
        refine ⟨?_, sanitizeKeyword_count hx, sanitizeKeyword_importance hx⟩
        have := hmem.2
        simpa [bne] using this
    · simp only [Option.some.injEq] at hk
      subst hk
      simp at hkw
  · intro x e h h1 h2 h3
    cases x <;> simp only [sanitizeKeyword, Option.some.injEq, reduceCtorEq] at h <;>
      subst h <;> dsimp only <;> exact importanceOf_default h1 h2 h3

/-- A reply with one well-formed keyword entry. -/
def demoKeywordReply : JSValue :=
  .obj [("keywordAnalysis",
    .arr [.obj [("keyword", .str "python"), ("count", .num (.fin 3)),
                ("importance", .str "odd"), ("recommendation", .str "keep")]])]

theorem keyword_analysis_invariants_witness :
    ∀ kw ∈ (mkFeedback demoKeywordReply [defaultCategory]
        [{ keyword := "python", count := JNum.fin 3, importance := "medium",
           recommendation := "keep" }]).keywordAnalysis,
      kw.keyword ≠ "" ∧
      (kw.count = JNum.inf ∨ ∃ q, kw.count = JNum.fin q ∧ 0 ≤ q) ∧
      (kw.importance = "high" ∨ kw.importance = "medium" ∨ kw.importance = "low") :=
  keyword_analysis_invariants.1 demoKeywordReply
    (mkFeedback demoKeywordReply [defaultCategory]
      [{ keyword := "python", count := JNum.fin 3, importance := "medium",
         recommendation := "keep" }]) rfl

/-! ### Strengths and suggestions -/

theorem string_length_pos_ne {s : String} (h : decide (s.length > 0) = true) : s ≠ "" := by
  intro e
  subst e
  simp at h

theorem sanStringArray_mem_ne {v : JSValue} {dflt : List String}
    (hd : ∀ s ∈ dflt, s ≠ "") : ∀ s ∈ sanStringArray v dflt, s ≠ "" := by
  intro s hs
  unfold sanStringArray at hs
  split at hs
  · exact string_length_pos_ne (List.mem_filter.mp hs).2
  · exact hd s hs

theorem withFallback_ne_nil {l fallb : List String} (hf : fallb ≠ []) :
    withFallback l fallb ≠ [] := by
  unfold withFallback
  split
  · exact hf
  · assumption

theorem withFallback_mem {l fallb : List String} :
    ∀ s ∈ withFallback l fallb, s ∈ l ∨ s ∈ fallb := by
  intro s hs
  unfold withFallback at hs
  split at hs
  · exact Or.inr hs
  · exact Or.inl hs

theorem sanStringArray_not_arr {v : JSValue} {dflt : List String}
    (h : ∀ xs, v ≠ JSValue.arr xs) : sanStringArray v dflt = dflt := by
  cases v <;> try rfl
  next xs => exact absurd rfl (h xs)

theorem sanStringArray_all_empty {xs : List JSValue} {dflt : List String}
    (h : ∀ x ∈ xs, jToString x = "") : sanStringArray (JSValue.arr xs) dflt = [] := by
  unfold sanStringArray
  rw [List.filter_eq_nil_iff]
  intro s hs
  obtain ⟨x, hx, rfl⟩ := List.mem_map.mp hs
  rw [h x hx]
  simp

/-- C7: the sanitized `strengths` and `suggestions` are non-empty lists of
non-empty strings; when the reply omits them or gives non-arrays the fixed
default lists are substituted, and when the given array sanitizes to only
empty strings the fixed fallback lists are substituted. -/
theorem strengths_suggestions_nonempty_defaults (r : JSValue) (fb : Feedback)
    (h : sanitizeFeedback r = some fb) :
    (fb.strengths ≠ [] ∧ ∀ s ∈ fb.strengths, s ≠ "") ∧
    (fb.suggestions ≠ [] ∧ ∀ s ∈ fb.suggestions, s ≠ "") ∧
    ((∀ xs, getF r "strengths" ≠ JSValue.arr xs) → fb.strengths = defaultStrengths) ∧
    ((∀ xs, getF r "suggestions" ≠ JSValue.arr xs) → fb.suggestions = defaultSuggestions) ∧
    (∀ xs, getF r "strengths" = JSValue.arr xs → (∀ x ∈ xs, jToString x = "") →
      fb.strengths = fallbackStrengths) ∧
    (∀ xs, getF r "suggestions" = JSValue.arr xs → (∀ x ∈ xs, jToString x = "") →
      fb.suggestions = fallbackSuggestions) := by
  obtain ⟨cats, kws, _, _, rfl⟩ := sanitizeFeedback_eq_some h
  rw [mkFeedback_strengths, mkFeedback_suggestions]
  have hds : ∀ s ∈ defaultStrengths, s ≠ "" := by decide
  have hdg : ∀ s ∈ defaultSuggestions, s ≠ "" := by decide
  have hfs : ∀ s ∈ fallbackStrengths, s ≠ "" := by decide
  have hfg : ∀ s ∈ fallbackSuggestions, s ≠ "" := by decide
  refine ⟨⟨withFallback_ne_nil (by decide), ?_⟩, ⟨withFallback_ne_nil (by decide), ?_⟩,
    ?_, ?_, ?_, ?_⟩
  · intro s hs
    rcases withFallback_mem s hs with h1 | h2
    · exact sanStringArray_mem_ne hds s h1
    · exact hfs s h2
  · intro s hs
    rcases withFallback_mem s hs with h1 | h2
    · exact sanStringArray_mem_ne hdg s h1
    · exact hfg s h2
  · intro hna
    rw [sanStringArray_not_arr hna]
    unfold withFallback
    rw [if_neg (by decide)]
  · intro hna
    rw [sanStringArray_not_arr hna]
    unfold withFallback
    rw [if_neg (by decide)]
  · intro xs hxs hall
    rw [hxs, sanStringArray_all_empty hall]
    rfl
  · intro xs hxs hall
    rw [hxs, sanStringArray_all_empty hall]
    rfl

theorem strengths_suggestions_nonempty_defaults_witness :
    (mkFeedback (JSValue.obj [("strengths", JSValue.arr [JSValue.str ""])])
        [defaultCategory] []).strengths = fallbackStrengths :=
  ((strengths_suggestions_nonempty_defaults
      (JSValue.obj [("strengths", JSValue.arr [JSValue.str ""])])
      (mkFeedback (JSValue.obj [("strengths", JSValue.arr [JSValue.str ""])])
        [defaultCategory] []) rfl).2.2.2.2.1) [JSValue.str ""] rfl
    (by intro x hx; rcases List.mem_singleton.mp hx with rfl; rfl)

/-- C2: `processPdf` tries pdf-parse, then pdftotextjs, then Tesseract
OCR, in that order; it returns the output of the first extractor whose
text has trimmed length greater than 50 without invoking the later ones,
and throws if none of the three produces such text. -/
theorem processPdf_fallback_chain (ex : PdfExtractors) :
    (∀ t, ex.pdfParse = ExtractResult.ok t → passes t = true →
      processPdf ex = (Except.ok t, [ExtractStep.pdfParseStep])) ∧
    (∀ t, passes (pdfParseText ex) = false →
      ex.pdftotextjs = ExtractResult.ok t → passes t = true →
      processPdf ex = (Except.ok t, [ExtractStep.pdfParseStep, ExtractStep.pdftotextjsStep])) ∧
    (∀ t, passes (pdfParseText ex) = false →
      (∀ t2, ex.pdftotextjs = ExtractResult.ok t2 → passes t2 = false) →
      ex.tesseract = ExtractResult.ok t → passes t = true →
      processPdf ex = (Except.ok t,
        [ExtractStep.pdfParseStep, ExtractStep.pdftotextjsStep, ExtractStep.tesseractStep])) ∧
    (passes (pdfParseText ex) = false →
      (∀ t2, ex.pdftotextjs = ExtractResult.ok t2 → passes t2 = false) →
      (∀ t3, ex.tesseract = ExtractResult.ok t3 → passes t3 = false) →
      ∃ msg, processPdf ex = (Except.error msg,
        [ExtractStep.pdfParseStep, ExtractStep.pdftotextjsStep, ExtractStep.tesseractStep])) := by
  refine ⟨?_, ?_, ?_, ?_⟩
  · intro t h1 hp
    have ht : pdfParseText ex = t := by rw [pdfParseText, h1]
    unfold processPdf
    rw [ht, hp]
    rfl

  · intro t h0 h2 hp
    unfold processPdf
    rw [h0, h2]
    simp only [Bool.false_eq_true, if_false]
    rw [hp]
    rfl
  · intro t h0 h2 h3 hp
    unfold processPdf
    rw [h0]
    simp only [Bool.false_eq_true, if_false]
    have htess : processPdfTesseract ex = (Except.ok t,
        [ExtractStep.pdfParseStep, ExtractStep.pdftotextjsStep, ExtractStep.tesseractStep]) := by
      unfold processPdfTesseract
      rw [h3]
      dsimp only
      rw [hp]
      rfl
    cases hpt : ex.pdftotextjs with
    | ok t2 => dsimp only; rw [h2 t2 hpt]; exact htess
    | err m => exact htess
  · intro h0 h2 h3
    unfold processPdf
    rw [h0]
    simp only [Bool.false_eq_true, if_false]
    have htess : ∃ msg, processPdfTesseract ex = (Except.error msg,
        [ExtractStep.pdfParseStep, ExtractStep.pdftotextjsStep, ExtractStep.tesseractStep]) := by
      unfold processPdfTesseract
      cases ht : ex.tesseract with
      | ok t3 =>
        dsimp only
        rw [h3 t3 ht]
        exact ⟨"PDF could not be processed by any method", rfl⟩
      | err m => exact ⟨m, rfl⟩
    cases hpt : ex.pdftotextjs with
    | ok t2 => dsimp only; rw [h2 t2 hpt]; exact htess
    | err m => exact htess

/-- A 60-character string accepted by the length gate. -/
def longText : String := String.mk (List.replicate 60 'a')

theorem processPdf_fallback_chain_witness :
    processPdf { pdfParse := ExtractResult.ok longText,
                 pdftotextjs := ExtractResult.err "broken",
                 tesseract := ExtractResult.err "broken" } =
      (Except.ok longText, [ExtractStep.pdfParseStep]) :=
  (processPdf_fallback_chain _).1 longText rfl (by decide)

/-! ### The feedback handler -/

/-- C5: when the extracted resume text is absent (empty) or its trimmed
length is below 50 characters, `/api/resume/feedback` answers HTTP 400
with `success: false` and never calls the LLM, whatever the LLM would
have replied. -/
theorem feedback_short_text_400 (text : String) (llm : Except String JSValue)
    (h : text = "" ∨ (jsTrim text).length < 50) :
    feedbackHandler (Except.ok text) llm =
      { status := 400, success := false, llmCalled := false, body := none } := by
  have hc : classifyFeedbackError
      "Resume text is too short or could not be extracted properly" = 400 := by decide
  unfold feedbackHandler
  dsimp only
  rw [if_pos h, hc]

theorem feedback_short_text_400_witness :
    feedbackHandler (Except.ok "") (Except.error "Groq is down") =
      { status := 400, success := false, llmCalled := false, body := none } :=
  feedback_short_text_400 "" (Except.error "Groq is down") (Or.inl rfl)

/-- C6: whenever a file was uploaded and stored for `/api/resume/feedback`
(a non-empty stored path), the handler's `finally` block removes it from
the filesystem, on the success path and on every error path alike. -/
theorem feedback_upload_cleanup (fs : Finset String) (filePath : String)
    (extract : Except String String) (llm : Except String JSValue)
    (h : filePath ≠ "") :
    filePath ∉ (feedbackHandlerFull fs filePath extract llm).2 := by
  show filePath ∉ cleanupUpload fs filePath
  unfold cleanupUpload
  split
  · exact Finset.not_mem_erase _ _
  · next hcond =>
    intro hmem
    exact hcond ⟨h, hmem⟩

theorem feedback_upload_cleanup_witness :
    "uploads/1700000000000-cv.pdf" ∉
      (feedbackHandlerFull {"uploads/1700000000000-cv.pdf"} "uploads/1700000000000-cv.pdf"
        (Except.ok "") (Except.error "unreached")).2 :=
  feedback_upload_cleanup {"uploads/1700000000000-cv.pdf"} "uploads/1700000000000-cv.pdf"
    (Except.ok "") (Except.error "unreached") (by decide)

/-! ### The document generation handlers -/

/-- C4: every request to `/api/generate-pdf` fails with HTTP 500 and body
`{"error": "Failed to generate PDF"}`: the handler evaluates the
undeclared identifier `chromium` before producing any output, and the
resulting `ReferenceError` lands in the catch-block. -/
theorem generate_pdf_always_500 (req : GeneratePdfRequest)
    (render : GeneratePdfRequest → String) :
    generatePdfHandler req render =
      { status := 500, errorBody := some "Failed to generate PDF", sentFileName := none } := by
  have hch : referenceGlobal "chromium" = Except.error ("chromium" ++ " is not defined") := by
    have hcont : serverTopLevel.contains "chromium" = false := by decide
    unfold referenceGlobal
    rw [hcont]
    rfl
  unfold generatePdfHandler generatePdfTry
  rw [hch]

/-- C3 counterexample: `/api/resume/generate` forwards the prompt to the
LLM but returns the parsed JSON reply verbatim — here a reply that has
none of the schema's fields and no defaults substituted. -/
theorem generate_returns_reply_verbatim_cex :
    resumeGenerateHandler "I am a software engineer with 5 years in backend work"
        (Except.ok (some (JSValue.obj [("foo", JSValue.str "bar")]))) =
      { status := 200, body := some (JSValue.obj [("foo", JSValue.str "bar")]),
        errorBody := none } := by
  unfold resumeGenerateHandler
  rw [if_neg (by decide)]

/-- C3 amended: of the handlers that forward text or prompts to the LLM,
`/api/resume/feedback` coerces the reply into a fixed shape with defaults
for missing or invalid fields, while `/api/resume/generate` returns the
parsed JSON reply to the caller unmodified. -/
theorem llm_reply_coercion_amended :
    (∀ prompt v, prompt ≠ "" → jsTrim prompt ≠ "" →
      resumeGenerateHandler prompt (Except.ok (some v)) =
        { status := 200, body := some v, errorBody := none }) ∧
    (∀ r fb, sanitizeFeedback r = some fb →
      getF r "jobTitleMatch" = JSValue.undefined → fb.jobTitleMatch = "Professional") := by
  constructor
  · intro prompt v h1 h2
    unfold resumeGenerateHandler
    rw [if_neg]
    rintro (hc | hc)
    · exact h1 hc
    · exact h2 hc
  · intro r fb h hz
    obtain ⟨cats, kws, _, _, rfl⟩ := sanitizeFeedback_eq_some h
    rw [mkFeedback_jobTitleMatch, hz]
    rfl

theorem llm_reply_coercion_amended_witness :
    resumeGenerateHandler "machine learning engineer" (Except.ok (some JSValue.null)) =
      { status := 200, body := some JSValue.null, errorBody := none } :=
  llm_reply_coercion_amended.1 "machine learning engineer" JSValue.null
    (by decide) (by decide)

/-- A character allowed in the claim about generated file names: lowercase
ASCII letter, digit, or hyphen. -/
def allowedFileChar (c : Char) : Bool :=
  (decide ('a' ≤ c) && decide (c ≤ 'z')) || (decide ('0' ≤ c) && decide (c ≤ '9')) || c == '-'

theorem collapseSpaces_mem :
    ∀ (l : List Char) (b : Bool) (c : Char), c ∈ collapseSpaces b l →
      c = '-' ∨ (c ∈ l ∧ jsSpaceChar c = false) := by
  intro l
  induction l with
  | nil =>
    intro b c h
    simp [collapseSpaces] at h
  | cons x rest ih =>
    intro b c h
    unfold collapseSpaces at h
    by_cases hx : jsSpaceChar x = true
    · rw [if_pos hx] at h
      by_cases hb : b = true
      · rw [if_pos hb] at h
        rcases ih true c h with h1 | ⟨h2, h3⟩
        · exact Or.inl h1
        · exact Or.inr ⟨List.mem_cons_of_mem _ h2, h3⟩
      · rw [if_neg hb] at h
        rcases List.mem_cons.mp h with rfl | h2
        · exact Or.inl rfl
        · rcases ih true c h2 with h1 | ⟨h3, h4⟩
          · exact Or.inl h1
          · exact Or.inr ⟨List.mem_cons_of_mem _ h3, h4⟩
    · rw [if_neg hx] at h
      rcases List.mem_cons.mp h with rfl | h2
      · exact Or.inr ⟨List.mem_cons_self _ _, Bool.not_eq_true _ ▸ hx⟩
      · rcases ih false c h2 with h1 | ⟨h3, h4⟩
        · exact Or.inl h1
        · exact Or.inr ⟨List.mem_cons_of_mem _ h3, h4⟩

theorem alnum_toLower_allowed :
    ∀ c ∈ alnumChars, allowedFileChar (Char.toLower c) = true := by
  have h : alnumChars.all (fun c => allowedFileChar (Char.toLower c)) = true := by decide
  exact List.all_eq_true.mp h

/-- C10: a file name produced by the shared sanitization consists only of
lowercase ASCII letters, digits and hyphens (other characters are removed
and whitespace runs become single hyphens before lowercasing); both
endpoints default to `"resume"` when no name is given. -/
theorem filename_sanitization :
    (∀ name : String, ∀ c ∈ (sanitizeFileName name).data, allowedFileChar c = true) ∧
    finalFileNameDoc none = "resume" ∧ finalFileNamePdf none none = "resume" := by
  refine ⟨?_, rfl, rfl⟩
  intro name c hc
  unfold sanitizeFileName at hc
  obtain ⟨d, hd, rfl⟩ := List.mem_map.mp hc
  rcases collapseSpaces_mem _ _ _ hd with rfl | ⟨hmem, hns⟩
  · decide
  · have hkept := (List.mem_filter.mp hmem).2
    unfold keptChar at hkept
    rw [hns, Bool.or_false] at hkept
    have hda : d ∈ alnumChars := by simpa using hkept
    exact alnum_toLower_allowed d hda

theorem filename_sanitization_witness :
    allowedFileChar 'r' = true ∧ (sanitizeFileName "John A. Doe Jr!").data =
      ['j', 'o', 'h', 'n', '-', 'a', '-', 'd', 'o', 'e', '-', 'j', 'r'] :=
  ⟨filename_sanitization.1 "resume" 'r' (by decide), by decide⟩
